import Mathlib

/-
Verification of the homework-status notifier bot (`homework.py`) against its
natural-language specification.  The Python program is shallowly embedded:
JSON documents become the inductive type `JsonVal`, Python exceptions become
the inductive type `PyError` (each constructor carries the exception's
`str()` rendering), fallible Python code becomes `Except PyError`-valued
functions, and the endless polling loop becomes an explicit per-iteration
step function `main_iteration` together with the fold `main_run` over a
list of poll outcomes.
-/

namespace HomeworkBot

/-- Shallow embedding of the JSON values the bot manipulates: the possible
results of `response.json()` in Python (floats omitted; the API contract
uses none). `obj` models a Python `dict` with distinct keys in insertion
order, as produced by `json.loads`. -/
inductive JsonVal : Type where
  | null : JsonVal
  | bool : Bool → JsonVal
  | int : Int → JsonVal
  | str : String → JsonVal
  | list : List JsonVal → JsonVal
  | obj : List (String × JsonVal) → JsonVal

/-- Python runtime types, as compared by `check_response`'s
`type(...) == dict` / `== list` checks. -/
inductive PyType : Type where
  | noneType : PyType
  | bool : PyType
  | int : PyType
  | str : PyType
  | list : PyType
  | dict : PyType
  deriving DecidableEq

/-- Python exceptions raised by the embedded code.  Each constructor carries
the exception's `str()` rendering (for `KeyError`, `str` of the exception is
the `repr` of its key, so the payload is that repr). `HTTPStatusError`,
`EmptyValueError` and `UnexpectedValueError` are the custom classes imported
from the repository's `exceptions` module; all constructors here model
subclasses of Python's `Exception`, so all are caught by the main loop's
`except Exception` handler. -/
inductive PyError : Type where
  | httpStatusError : String → PyError
  | emptyValueError : String → PyError
  | unexpectedValueError : String → PyError
  | keyError : String → PyError
  | indexError : String → PyError
  | attributeError : String → PyError
  | typeError : String → PyError
  | telegramError : String → PyError
  deriving DecidableEq

/-- Rendering of `str(e)` for an embedded exception (used by the f-strings
`f'...: {error}'` in the source). -/
def errStr : PyError → String
  | PyError.httpStatusError m => m
  | PyError.emptyValueError m => m
  | PyError.unexpectedValueError m => m
  | PyError.keyError m => m
  | PyError.indexError m => m
  | PyError.attributeError m => m
  | PyError.typeError m => m
  | PyError.telegramError m => m

/-- Python `type(v)` of an embedded JSON value. -/
def pyType : JsonVal → PyType
  | JsonVal.null => PyType.noneType
  | JsonVal.bool _ => PyType.bool
  | JsonVal.int _ => PyType.int
  | JsonVal.str _ => PyType.str
  | JsonVal.list _ => PyType.list
  | JsonVal.obj _ => PyType.dict

/-- Name of the Python type of a value, as it appears in `AttributeError`
messages such as `'str' object has no attribute 'get'`. -/
def typeName : JsonVal → String
  | JsonVal.null => "NoneType"
  | JsonVal.bool _ => "bool"
  | JsonVal.int _ => "int"
  | JsonVal.str _ => "str"
  | JsonVal.list _ => "list"
  | JsonVal.obj _ => "dict"

/-- Rendering of a Python type object in an f-string, e.g. `<class 'dict'>`,
used by `check_response`'s error message. -/
def pyTypeStr : PyType → String
  | PyType.noneType => "<class \x27NoneType\x27>"
  | PyType.bool => "<class \x27bool\x27>"
  | PyType.int => "<class \x27int\x27>"
  | PyType.str => "<class \x27str\x27>"
  | PyType.list => "<class \x27list\x27>"
  | PyType.dict => "<class \x27dict\x27>"

/-- Python truthiness of an embedded JSON value (`if not response:` etc.). -/
def pyTruthy : JsonVal → Bool
  | JsonVal.null => false
  | JsonVal.bool b => b
  | JsonVal.int n => n != 0
  | JsonVal.str s => !s.isEmpty
  | JsonVal.list xs => !xs.isEmpty
  | JsonVal.obj fs => !fs.isEmpty

/-- First-match association-list lookup.  Models Python `dict` lookup for
the embedded objects, whose keys are distinct. -/
def assocLookup {α : Type} : List (String × α) → String → Option α
  | [], _ => none
  | (k, v) :: rest, key => if k = key then some v else assocLookup rest key

mutual

/-- Python `repr` of an embedded JSON value (also `str` for containers). -/
def pyRepr : JsonVal → String
  | JsonVal.null => "None"
  | JsonVal.bool true => "True"
  | JsonVal.bool false => "False"
  | JsonVal.int n => toString n
  | JsonVal.str s => "\x27" ++ s ++ "\x27"
  | JsonVal.list xs => "[" ++ pyReprList xs ++ "]"
  | JsonVal.obj fs => "\x7b" ++ pyReprFields fs ++ "\x7d"

/-- Comma-separated reprs of the elements of an embedded JSON list. -/
def pyReprList : List JsonVal → String
  | [] => ""
  | [x] => pyRepr x
  | x :: xs => pyRepr x ++ ", " ++ pyReprList xs

/-- Comma-separated `'key': value` reprs of the fields of an embedded
JSON object. -/
def pyReprFields : List (String × JsonVal) → String
  | [] => ""
  | [(k, v)] => "\x27" ++ k ++ "\x27: " ++ pyRepr v
  | (k, v) :: fs => "\x27" ++ k ++ "\x27: " ++ pyRepr v ++ ", " ++ pyReprFields fs

end

/-- Python `str()` of an embedded JSON value, as interpolated by f-strings. -/
def pyStr : JsonVal → String
  | JsonVal.null => "None"
  | JsonVal.bool true => "True"
  | JsonVal.bool false => "False"
  | JsonVal.int n => toString n
  | JsonVal.str s => s
  | v => pyRepr v

/-- Python `v.get(key)`: defined only on `dict` (returns the value or
`None`); on any other value the attribute access raises `AttributeError`. -/
def pyGet : JsonVal → String → Except PyError JsonVal
  | JsonVal.obj fs, key => Except.ok ((assocLookup fs key).getD JsonVal.null)
  | v, _ =>
      Except.error (PyError.attributeError
        ("\x27" ++ typeName v ++ "\x27 object has no attribute \x27get\x27"))

/-- Python `v[0]` on an embedded JSON value: `IndexError` on an empty list
or string, `KeyError` on a dict, `TypeError` on non-subscriptable values. -/
def pyIndex0 : JsonVal → Except PyError JsonVal
  | JsonVal.list [] => Except.error (PyError.indexError "list index out of range")
  | JsonVal.list (x :: _) => Except.ok x
  | JsonVal.str s =>
      if s.isEmpty then Except.error (PyError.indexError "string index out of range")
      else Except.ok (JsonVal.str (String.singleton s.front))
  | JsonVal.obj _ => Except.error (PyError.keyError "0")
  | v =>
      Except.error (PyError.typeError
        ("\x27" ++ typeName v ++ "\x27 object is not subscriptable"))

/-- Python `d[k]` for a string-keyed dict (the verdict table): raises
`TypeError` for unhashable keys (lists, dicts), `KeyError` (carrying the
repr of the key) for hashable keys that are absent, and otherwise returns
the value. -/
def pyDictSubscript (d : List (String × String)) : JsonVal → Except PyError String
  | JsonVal.str s =>
      match assocLookup d s with
      | some v => Except.ok v
      | none => Except.error (PyError.keyError ("\x27" ++ s ++ "\x27"))
  | JsonVal.list _ => Except.error (PyError.typeError "unhashable type: \x27list\x27")
  | JsonVal.obj _ => Except.error (PyError.typeError "unhashable type: \x27dict\x27")
  | k => Except.error (PyError.keyError (pyRepr k))

/-- Python `dict` insertion (`d[k] = v` semantics of a dict literal):
updating an existing key keeps its position, a new key is appended. -/
def pyDictInsert {α β : Type} [DecidableEq α] (d : List (α × β)) (k : α) (v : β) :
    List (α × β) :=
  if d.any (fun p => decide (p.1 = k)) then
    d.map (fun p => if p.1 = k then (p.1, v) else p)
  else d ++ [(k, v)]

/-- Fixed sleep between loop iterations (`RETRY_PERIOD = 10`). -/
def RETRY_PERIOD : Nat := 10

/-- Polled endpoint URL (`ENDPOINT`). -/
def ENDPOINT : String := "https://practicum.yandex.ru/api/user_api/homework_statuses/"

/-- Static verdict table `HOMEWORK_VERDICTS`: status code to localized
verdict sentence. -/
def HOMEWORK_VERDICTS : List (String × String) :=
  [("approved", "Работа проверена: ревьюеру всё понравилось. Ура!"),
   ("reviewing", "Работа взята на проверку ревьюером."),
   ("rejected", "Работа проверена: у ревьюера есть замечания.")]

/-- Process environment as seen by the bot: the three secrets read with
`os.getenv` (`none` models an unset variable, `some ""` an empty one). -/
structure Env : Type where
  practicum_token : Option String
  telegram_token : Option String
  telegram_chat_id : Option String

/-- Python falsiness of an `os.getenv` result (`if not var:`): unset or
empty. -/
def envFalsy : Option String → Bool
  | none => true
  | some s => s.isEmpty

/-- Scan of `check_tokens`' `for var, name in variables.items():` loop: on
the first falsy variable it calls `sys.exit()`, which raises
`SystemExit(None)` and so terminates the process with exit code 0. -/
def tokensScan : List (Option String × String) → Except Nat Unit
  | [] => Except.ok ()
  | (var, _) :: rest => if envFalsy var then Except.error 0 else tokensScan rest

/-- Embedding of `check_tokens`: builds the `variables` dict literal (keyed
by the variable values, so equal values collide and the later name wins)
and exits on the first missing or empty variable.  `Except.error c` models
process termination with exit code `c`. -/
def check_tokens (env : Env) : Except Nat Unit :=
  tokensScan
    (pyDictInsert
      (pyDictInsert
        (pyDictInsert [] env.practicum_token "PRACTICUM_TOKEN")
        env.telegram_token "TELEGRAM_TOKEN")
      env.telegram_chat_id "TELEGRAM_CHAT_ID")

/-- Embedding of `send_message`: attempts `bot.send_message` with the given
transport outcome; a `TelegramError` is caught and only logged, any other
exception from the transport would propagate. -/
def send_message (transport : Except PyError Unit) : Except PyError Unit :=
  match transport with
  | Except.ok () => Except.ok ()
  | Except.error (PyError.telegramError _) => Except.ok ()
  | Except.error e => Except.error e

/-- Embedding of `get_api_answer`: given the HTTP status code and parsed
JSON body of the endpoint's reply, raises `HTTPStatusError` when the status
is not 200 and otherwise returns the body. -/
def get_api_answer (status_code : Nat) (body : JsonVal) : Except PyError JsonVal :=
  if status_code ≠ 200 then
    Except.error (PyError.httpStatusError
      ("Эндпоинт " ++ ENDPOINT ++ " недоступен. Код ответа API: " ++ toString status_code))
  else Except.ok body

/-- Type-check loop of `check_response` over the `checking_values` dict
`(type(response): dict, type(response.get(homeworks)): list)`: raises
`UnexpectedValueError` on the first entry whose key differs from its
value. -/
def checkTypesLoop : List (PyType × PyType) → Except PyError Unit
  | [] => Except.ok ()
  | (k, v) :: rest =>
      if k ≠ v then
        Except.error (PyError.unexpectedValueError ("Некорректный тип данных: " ++ pyTypeStr k))
      else checkTypesLoop rest

/-- Key-allowlist loop of `check_response` (`for key in response:`): raises
`KeyError` on the first key outside the recognized set.  The `KeyError`
payload is the repr of its message-string argument, hence the surrounding
quotes. -/
def checkKeysLoop : List String → Except PyError Unit
  | [] => Except.ok ()
  | k :: rest =>
      if k = "homeworks" ∨ k = "current_date" then checkKeysLoop rest
      else Except.error (PyError.keyError ("\x27Ключ " ++ k ++ " в словаре отсутствует\x27"))

/-- Keys of an embedded JSON object in insertion order (iteration over a
Python dict). -/
def objKeys : JsonVal → List String
  | JsonVal.obj fs => fs.map Prod.fst
  | _ => []

/-- Embedding of `check_response`: rejects falsy responses with
`EmptyValueError`, then builds and checks the type dict (the `.get` on a
non-dict raises `AttributeError` here), then checks the key allowlist, and
finally takes `homeworks[0]`, converting `IndexError` into the no-update
sentinel (`none`, Python's implicit `return None`). -/
def check_response (response : JsonVal) : Except PyError (Option JsonVal) :=
  if pyTruthy response = false then
    Except.error (PyError.emptyValueError "Возврат пустого словаря")
  else
    match pyGet response "homeworks" with
    | Except.error e => Except.error e
    | Except.ok hws =>
      match checkTypesLoop
          (pyDictInsert (pyDictInsert [] (pyType response) PyType.dict)
            (pyType hws) PyType.list) with
      | Except.error e => Except.error e
      | Except.ok _ =>
        match checkKeysLoop (objKeys response) with
        | Except.error e => Except.error e
        | Except.ok _ =>
          match pyIndex0 hws with
          | Except.ok h => Except.ok (some h)
          | Except.error (PyError.indexError _) => Except.ok none
          | Except.error e => Except.error e

/-- Message `f'Изменился статус проверки работы "..." . ...'` built by
`parse_status` on success. -/
def status_changed_message (name verdict : String) : String :=
  "Изменился статус проверки работы \"" ++ name ++ "\". " ++ verdict

/-- Message built by `parse_status`'s `except KeyError` handler; `r` is
`str(error)`, i.e. the repr of the missing key. -/
def unrecognized_status_message (r : String) : String :=
  "Статус проверки не соответствует ожидаемым вариантам: " ++ r

/-- Embedding of `parse_status`: reads `homework_name` and `status` with
`.get` (so an `AttributeError` on a non-dict propagates), looks the status
up in `HOMEWORK_VERDICTS`; a `KeyError` from the lookup is caught and its
text returned as the message, every other exception propagates. -/
def parse_status (homework : JsonVal) : Except PyError String :=
  match pyGet homework "homework_name" with
  | Except.error e => Except.error e
  | Except.ok homework_name =>
    match pyGet homework "status" with
    | Except.error e => Except.error e
    | Except.ok status =>
      match pyDictSubscript HOMEWORK_VERDICTS status with
      | Except.ok verdict =>
          Except.ok (status_changed_message (pyStr homework_name) verdict)
      | Except.error (PyError.keyError r) =>
          Except.ok (unrecognized_status_message r)
      | Except.error e => Except.error e

/-- Message `f'Сбой в работе программы: {error}'` sent by the main loop's
`except Exception` handler. -/
def program_failure_message (e : PyError) : String :=
  "Сбой в работе программы: " ++ errStr e

/-- Observable outcome of one iteration of the main loop's `while True`
body: the cursor (`from_date` value of `timestamp`) after the iteration,
the messages passed to `send_message` during the iteration (attempted chat
notifications, in order), and the duration of the `time.sleep` that ends
the iteration. -/
structure IterResult : Type where
  newCursor : JsonVal
  sent : List String
  sleptFor : Nat

/-- Embedding of one iteration of `main`'s loop.  `outcome` is the result
of `updater.start_polling()` plus `get_api_answer(timestamp)`: either an
`Exception`-kind failure or the parsed JSON response.  The response's
`current_date` overwrites the cursor before `check_response` runs (an
`AttributeError` from `.get` on a non-dict response is caught by the outer
handler, leaving the cursor unchanged); any exception reaching the `except
Exception` handler produces one attempted failure notification; the
iteration always ends with `time.sleep(RETRY_PERIOD)`. -/
def main_iteration (cursor : JsonVal) (outcome : Except PyError JsonVal) : IterResult :=
  match outcome with
  | Except.error e =>
      { newCursor := cursor, sent := [program_failure_message e], sleptFor := RETRY_PERIOD }
  | Except.ok response =>
      match pyGet response "current_date" with
      | Except.error e =>
          { newCursor := cursor, sent := [program_failure_message e], sleptFor := RETRY_PERIOD }
      | Except.ok current_date =>
          match check_response response with
          | Except.error e =>
              { newCursor := current_date, sent := [program_failure_message e],
                sleptFor := RETRY_PERIOD }
          | Except.ok none =>
              { newCursor := current_date, sent := [], sleptFor := RETRY_PERIOD }
          | Except.ok (some hw) =>
              if pyTruthy hw then
                match parse_status hw with
                | Except.error e =>
                    { newCursor := current_date, sent := [program_failure_message e],
                      sleptFor := RETRY_PERIOD }
                | Except.ok msg =>
                    { newCursor := current_date, sent := [msg], sleptFor := RETRY_PERIOD }
              else
                { newCursor := current_date, sent := [], sleptFor := RETRY_PERIOD }

/-- The main loop run against a list of per-iteration poll outcomes: one
`IterResult` per outcome, threading the cursor. -/
def main_run (cursor : JsonVal) : List (Except PyError JsonVal) → List IterResult
  | [] => []
  | o :: os =>
      let r := main_iteration cursor o
      r :: main_run r.newCursor os

/-- Initial cursor of `main`: the hardcoded `from_date` of `timestamp`. -/
def initialCursor : JsonVal := JsonVal.int 1679119678

/-- Embedding of `main`: `check_tokens` runs first, before the bot client
is built and before any HTTP request; if it exits, the result is the exit
code and an empty iteration list (no poll, hence no HTTP request, ever
happens).  Otherwise the loop runs over the given poll outcomes. -/
def main_program (env : Env) (os : List (Except PyError JsonVal)) :
    Option Nat × List IterResult :=
  match check_tokens env with
  | Except.error code => (some code, [])
  | Except.ok _ => (none, main_run initialCursor os)

/-- A Python value is hashable (usable as a dict key) unless it is a list
or a dict. -/
def pyHashable : JsonVal → Bool
  | JsonVal.list _ => false
  | JsonVal.obj _ => false
  | _ => true

/-- The wrong-type error kind of this program: the custom
`UnexpectedValueError` raised by `check_response`'s type checks (the spec's
SchemaViolation). -/
def isSchemaViolationError : PyError → Bool
  | PyError.unexpectedValueError _ => true
  | _ => false

/-- Substring containment: `t` occurs contiguously inside `s`. -/
def strContains (s t : String) : Prop := ∃ a b, s = a ++ (t ++ b)

/-- Unfolding of one loop iteration on a mapping response: the `.get` for
`current_date` succeeds, so every branch of the rest of the iteration
carries the same new cursor. -/
theorem main_iteration_obj (c : JsonVal) (fs : List (String × JsonVal)) :
    main_iteration c (Except.ok (JsonVal.obj fs))
      = match check_response (JsonVal.obj fs) with
        | Except.error e =>
            { newCursor := (assocLookup fs "current_date").getD JsonVal.null,
              sent := [program_failure_message e], sleptFor := RETRY_PERIOD }
        | Except.ok none =>
            { newCursor := (assocLookup fs "current_date").getD JsonVal.null,
              sent := [], sleptFor := RETRY_PERIOD }
        | Except.ok (some hw) =>
            if pyTruthy hw then
              match parse_status hw with
              | Except.error e =>
                  { newCursor := (assocLookup fs "current_date").getD JsonVal.null,
                    sent := [program_failure_message e], sleptFor := RETRY_PERIOD }
              | Except.ok msg =>
                  { newCursor := (assocLookup fs "current_date").getD JsonVal.null,
                    sent := [msg], sleptFor := RETRY_PERIOD }
            else
              { newCursor := (assocLookup fs "current_date").getD JsonVal.null,
                sent := [], sleptFor := RETRY_PERIOD } := rfl

/-- On a mapping response the cursor after the iteration is always the
response's `current_date` value (or `None` when absent), whatever
`check_response` and `parse_status` do afterwards. -/
theorem main_iteration_newCursor_obj (c : JsonVal) (fs : List (String × JsonVal)) :
    (main_iteration c (Except.ok (JsonVal.obj fs))).newCursor
      = (assocLookup fs "current_date").getD JsonVal.null := by
  rw [main_iteration_obj]
  cases check_response (JsonVal.obj fs) with
  | error e => rfl
  | ok r =>
      cases r with
      | none => rfl
      | some hw =>
          by_cases hb : pyTruthy hw = true
          · simp only [hb, if_true]
            cases parse_status hw <;> rfl
          · simp [hb]

/-- Every iteration of the loop ends with the fixed `RETRY_PERIOD` sleep,
whatever the poll outcome. -/
theorem main_iteration_sleptFor (c : JsonVal) (o : Except PyError JsonVal) :
    (main_iteration c o).sleptFor = RETRY_PERIOD := by
  cases o with
  | error e => rfl
  | ok v =>
      cases v with
      | obj fs =>
          rw [main_iteration_obj]
          cases check_response (JsonVal.obj fs) with
          | error e => rfl
          | ok r =>
              cases r with
              | none => rfl
              | some hw =>
                  by_cases hb : pyTruthy hw = true
                  · simp only [hb, if_true]
                    cases parse_status hw <;> rfl
                  · simp [hb]
      | null => rfl
      | bool b => rfl
      | int n => rfl
      | str s => rfl
      | list xs => rfl

/-- The loop run performs one full iteration per poll outcome. -/
theorem main_run_length (c : JsonVal) (os : List (Except PyError JsonVal)) :
    (main_run c os).length = os.length := by
  induction os generalizing c with
  | nil => rfl
  | cons o os ih => simp [main_run, ih]

/-- The `check_tokens` scan exits (with code 0) as soon as the variables
dict contains an entry whose key — a variable's value — is falsy. -/
theorem tokensScan_exit {l : List (Option String × String)} {v : Option String}
    {n : String} (hm : (v, n) ∈ l) (hv : envFalsy v = true) :
    tokensScan l = Except.error 0 := by
  induction l with
  | nil => cases hm
  | cons hd tl ih =>
      obtain ⟨v0, n0⟩ := hd
      by_cases h0 : envFalsy v0 = true
      · simp [tokensScan, h0]
      · rcases List.mem_cons.mp hm with heq | hmem
        · cases heq
          exact absurd hv h0
        · simp only [tokensScan, h0, if_neg, Bool.false_eq_true, if_false]
          exact ih hmem

/-- Inserting a key into an embedded Python dict makes that key present
with the inserted value. -/
theorem mem_pyDictInsert_self {α β : Type} [DecidableEq α] (d : List (α × β))
    (k : α) (v : β) : (k, v) ∈ pyDictInsert d k v := by
  unfold pyDictInsert
  by_cases h : d.any (fun p => decide (p.1 = k)) = true
  · rw [if_pos h]
    rcases List.any_eq_true.mp h with ⟨p, hp, hpk⟩
    have hk : p.1 = k := of_decide_eq_true hpk
    exact List.mem_map.mpr ⟨p, hp, by simp [hk]⟩
  · rw [if_neg h]
    exact List.mem_append.mpr (Or.inr (List.mem_singleton.mpr rfl))

/-- Dict insertion preserves the presence of every existing key (possibly
updating its value). -/
theorem mem_pyDictInsert_of_mem {α β : Type} [DecidableEq α]
    {d : List (α × β)} {k' : α} {w : β} (hm : (k', w) ∈ d) (k : α) (v : β) :
    ∃ w', (k', w') ∈ pyDictInsert d k v := by
  unfold pyDictInsert
  by_cases h : d.any (fun p => decide (p.1 = k)) = true
  · rw [if_pos h]
    by_cases hk : k' = k
    · exact ⟨v, List.mem_map.mpr ⟨(k', w), hm, by simp [hk]⟩⟩
    · exact ⟨w, List.mem_map.mpr ⟨(k', w), hm, by simp [hk]⟩⟩
  · rw [if_neg h]
    exact ⟨w, List.mem_append.mpr (Or.inl hm)⟩

/-- C1 counterexample: on the record `("homework_name": "hw1", "status":
"unknown")` — an unrecognized status — `parse_status` does not raise: the
`KeyError` from the verdict lookup is caught inside it and the error text
is returned as the message, and the main loop then passes exactly that
message to `send_message`, so a chat message IS sent for the record. -/
theorem claim_C1_counterexample :
    parse_status (JsonVal.obj
        [("homework_name", JsonVal.str "hw1"), ("status", JsonVal.str "unknown")])
      = Except.ok (unrecognized_status_message "\x27unknown\x27")
    ∧ (main_iteration (JsonVal.int 0) (Except.ok (JsonVal.obj
        [("homeworks", JsonVal.list [JsonVal.obj
            [("homework_name", JsonVal.str "hw1"), ("status", JsonVal.str "unknown")]]),
         ("current_date", JsonVal.int 5)]))).sent
      = [unrecognized_status_message "\x27unknown\x27"] :=
  ⟨rfl, rfl⟩

/-- C1 (amended): for every homework record whose status is a string
outside the three recognized codes, `parse_status` does not fail — it
catches the `KeyError` from the verdict lookup and returns the
unrecognized-status error text as the message — and the main loop sends
exactly that message to the chat for the record. -/
theorem claim_C1_theorem (name st : String) (cd : Int) (c : JsonVal)
    (h : assocLookup HOMEWORK_VERDICTS st = none) :
    parse_status (JsonVal.obj
        [("homework_name", JsonVal.str name), ("status", JsonVal.str st)])
      = Except.ok (unrecognized_status_message ("\x27" ++ st ++ "\x27"))
    ∧ (main_iteration c (Except.ok (JsonVal.obj
        [("homeworks", JsonVal.list [JsonVal.obj
            [("homework_name", JsonVal.str name), ("status", JsonVal.str st)]]),
         ("current_date", JsonVal.int cd)]))).sent
      = [unrecognized_status_message ("\x27" ++ st ++ "\x27")] := by
  have hs : pyDictSubscript HOMEWORK_VERDICTS (JsonVal.str st)
      = Except.error (PyError.keyError ("\x27" ++ st ++ "\x27")) := by
    simp only [pyDictSubscript, h]
  have hred : parse_status (JsonVal.obj
        [("homework_name", JsonVal.str name), ("status", JsonVal.str st)])
      = match pyDictSubscript HOMEWORK_VERDICTS (JsonVal.str st) with
        | Except.ok v => Except.ok (status_changed_message name v)
        | Except.error (PyError.keyError r) => Except.ok (unrecognized_status_message r)
        | Except.error e => Except.error e := rfl
  have hp : parse_status (JsonVal.obj
        [("homework_name", JsonVal.str name), ("status", JsonVal.str st)])
      = Except.ok (unrecognized_status_message ("\x27" ++ st ++ "\x27")) := by
    rw [hred, hs]
  refine ⟨hp, ?_⟩
  have hm : main_iteration c (Except.ok (JsonVal.obj
        [("homeworks", JsonVal.list [JsonVal.obj
            [("homework_name", JsonVal.str name), ("status", JsonVal.str st)]]),
         ("current_date", JsonVal.int cd)]))
      = match parse_status (JsonVal.obj
          [("homework_name", JsonVal.str name), ("status", JsonVal.str st)]) with
        | Except.error e =>
            { newCursor := JsonVal.int cd, sent := [program_failure_message e],
              sleptFor := RETRY_PERIOD }
        | Except.ok msg =>
            { newCursor := JsonVal.int cd, sent := [msg], sleptFor := RETRY_PERIOD } := rfl
  rw [hm, hp]

/-- C1 witness: the amended theorem applied at the record with name "hw1"
and status "unknown". -/
theorem claim_C1_witness :
    parse_status (JsonVal.obj
        [("homework_name", JsonVal.str "hw1"), ("status", JsonVal.str "unknown")])
      = Except.ok (unrecognized_status_message ("\x27" ++ "unknown" ++ "\x27"))
    ∧ (main_iteration (JsonVal.int 0) (Except.ok (JsonVal.obj
        [("homeworks", JsonVal.list [JsonVal.obj
            [("homework_name", JsonVal.str "hw1"), ("status", JsonVal.str "unknown")]]),
         ("current_date", JsonVal.int 5)]))).sent
      = [unrecognized_status_message ("\x27" ++ "unknown" ++ "\x27")] :=
  claim_C1_theorem "hw1" "unknown" 5 (JsonVal.int 0) rfl

/-- C2 counterexample: with `PRACTICUM_TOKEN` unset (and the other two
variables set), the process does terminate before any poll iteration, but
`sys.exit()` is called with no argument, so the exit code is 0 — not
non-zero as the claim states. -/
theorem claim_C2_counterexample :
    main_program ⟨none, some "bot-token", some "chat-id"⟩ [Except.ok JsonVal.null]
      = (some 0, [])
    ∧ ¬ ((0 : Nat) ≠ 0) :=
  ⟨rfl, fun h => h rfl⟩

/-- C2 (amended): if any of the three required environment variables is
missing or empty, the process terminates inside `check_tokens` — before
the bot client is built and before any HTTP request is attempted (the
iteration list is empty) — but with exit code 0, because `sys.exit()` is
called without an argument. -/
theorem claim_C2_theorem (env : Env) (os : List (Except PyError JsonVal))
    (h : envFalsy env.practicum_token = true ∨ envFalsy env.telegram_token = true
        ∨ envFalsy env.telegram_chat_id = true) :
    main_program env os = (some 0, []) := by
  have hct : check_tokens env = Except.error 0 := by
    unfold check_tokens
    rcases h with h1 | h2 | h3
    · have m1 : (env.practicum_token, "PRACTICUM_TOKEN")
          ∈ pyDictInsert ([] : List (Option String × String))
              env.practicum_token "PRACTICUM_TOKEN" :=
        mem_pyDictInsert_self [] env.practicum_token "PRACTICUM_TOKEN"
      obtain ⟨w2, m2⟩ := mem_pyDictInsert_of_mem m1 env.telegram_token "TELEGRAM_TOKEN"
      obtain ⟨w3, m3⟩ := mem_pyDictInsert_of_mem m2 env.telegram_chat_id "TELEGRAM_CHAT_ID"
      exact tokensScan_exit m3 h1
    · have m2 : (env.telegram_token, "TELEGRAM_TOKEN")
          ∈ pyDictInsert (pyDictInsert [] env.practicum_token "PRACTICUM_TOKEN")
              env.telegram_token "TELEGRAM_TOKEN" :=
        mem_pyDictInsert_self _ env.telegram_token "TELEGRAM_TOKEN"
      obtain ⟨w3, m3⟩ := mem_pyDictInsert_of_mem m2 env.telegram_chat_id "TELEGRAM_CHAT_ID"
      exact tokensScan_exit m3 h2
    · exact tokensScan_exit
        (mem_pyDictInsert_self _ env.telegram_chat_id "TELEGRAM_CHAT_ID") h3
  unfold main_program
  rw [hct]

/-- C2 witness: the amended theorem applied to an environment with
`PRACTICUM_TOKEN` unset. -/
theorem claim_C2_witness :
    main_program ⟨none, some "bot-token", some "chat-id"⟩ [Except.ok JsonVal.null]
      = (some 0, []) :=
  claim_C2_theorem ⟨none, some "bot-token", some "chat-id"⟩
    [Except.ok JsonVal.null] (Or.inl rfl)

/-- C3 counterexample: on a mapping response with no `current_date` field,
the cursor does NOT keep its previous value: `response.get('current_date')`
returns `None` and the assignment replaces the cursor with it. -/
theorem claim_C3_counterexample :
    (main_iteration initialCursor
        (Except.ok (JsonVal.obj [("homeworks", JsonVal.list [])]))).newCursor
      = JsonVal.null
    ∧ JsonVal.null ≠ initialCursor :=
  ⟨rfl, fun h => JsonVal.noConfusion h⟩

/-- C3 (amended): in every iteration whose mapping response contains a
`current_date` value `T`, the cursor for the next poll equals `T`; when
the mapping response has no `current_date` field, the cursor is replaced
by the absent value `None` (it does not keep its previous value). -/
theorem claim_C3_theorem (c : JsonVal) (fs : List (String × JsonVal)) :
    (∀ T, assocLookup fs "current_date" = some T →
      (main_iteration c (Except.ok (JsonVal.obj fs))).newCursor = T)
    ∧ (assocLookup fs "current_date" = none →
      (main_iteration c (Except.ok (JsonVal.obj fs))).newCursor = JsonVal.null) := by
  have key := main_iteration_newCursor_obj c fs
  constructor
  · intro T hT
    rw [key, hT]
    rfl
  · intro h0
    rw [key, h0]
    rfl

/-- C3 witness: the amended theorem applied at a response carrying
`current_date = 1700000000` and at one lacking it. -/
theorem claim_C3_witness :
    (main_iteration initialCursor (Except.ok (JsonVal.obj
        [("homeworks", JsonVal.list []),
         ("current_date", JsonVal.int 1700000000)]))).newCursor
      = JsonVal.int 1700000000 :=
  (claim_C3_theorem initialCursor
      [("homeworks", JsonVal.list []), ("current_date", JsonVal.int 1700000000)]).1
    (JsonVal.int 1700000000) rfl

/-- C4 (confirmed): every `Exception`-kind error raised during a loop
iteration is caught at the loop boundary and converted into exactly one
attempted chat notification carrying the failure text — whether the error
arrives as the poll outcome (`start_polling` / `get_api_answer`), is the
`AttributeError` from `response.get('current_date')` on a non-mapping
response, is raised by `check_response`, or is raised by `parse_status`
on the truthy first record; every iteration — error or not — ends with
the fixed `RETRY_PERIOD` sleep; the loop performs one full iteration per
poll outcome for any outcome sequence (it never terminates on its own);
and `send_message` swallows a `TelegramError`, so the notification
attempt itself cannot kill the loop. -/
theorem claim_C4_theorem (c : JsonVal) (e : PyError)
    (os : List (Except PyError JsonVal)) :
    (main_iteration c (Except.error e)).sent = [program_failure_message e]
    ∧ (∀ v, pyGet v "current_date" = Except.error e →
        (main_iteration c (Except.ok v)).sent = [program_failure_message e])
    ∧ (∀ fs, check_response (JsonVal.obj fs) = Except.error e →
        (main_iteration c (Except.ok (JsonVal.obj fs))).sent
          = [program_failure_message e])
    ∧ (∀ fs hw, check_response (JsonVal.obj fs) = Except.ok (some hw) →
        pyTruthy hw = true → parse_status hw = Except.error e →
        (main_iteration c (Except.ok (JsonVal.obj fs))).sent
          = [program_failure_message e])
    ∧ (∀ o, (main_iteration c o).sleptFor = RETRY_PERIOD)
    ∧ (main_run c os).length = os.length
    ∧ (∀ m, send_message (Except.error (PyError.telegramError m)) = Except.ok ()) := by
  refine ⟨rfl, ?_, ?_, ?_, fun o => main_iteration_sleptFor c o,
    main_run_length c os, fun _ => rfl⟩
  · intro v hv
    have hm : main_iteration c (Except.ok v)
        = { newCursor := c, sent := [program_failure_message e],
            sleptFor := RETRY_PERIOD } := by
      simp only [main_iteration]
      rw [hv]
    rw [hm]
  · intro fs hcr
    rw [main_iteration_obj, hcr]
  · intro fs hw hcr htr hps
    rw [main_iteration_obj, hcr]
    simp only [htr, if_true]
    rw [hps]

/-- C4 witness: the theorem's notification conjunct for an error raised
inside the iteration, at the non-mapping response `"oops"`, whose `.get`
raises `AttributeError`; the iteration sends exactly the failure text. -/
theorem claim_C4_witness :
    (main_iteration JsonVal.null (Except.ok (JsonVal.str "oops"))).sent
      = [program_failure_message (PyError.attributeError
          "\x27str\x27 object has no attribute \x27get\x27")] :=
  (claim_C4_theorem JsonVal.null
      (PyError.attributeError "\x27str\x27 object has no attribute \x27get\x27")
      []).2.1 (JsonVal.str "oops") rfl

/-- C5 (confirmed): for every status code present in the verdict table —
in particular each of the three recognized codes — `parse_status` on a
record carrying a name and that status returns the status-changed message,
which contains the homework name and the exact verdict sentence mapped to
that status. -/
theorem claim_C5_theorem (name st v : String)
    (h : assocLookup HOMEWORK_VERDICTS st = some v) :
    parse_status (JsonVal.obj
        [("homework_name", JsonVal.str name), ("status", JsonVal.str st)])
      = Except.ok (status_changed_message name v)
    ∧ strContains (status_changed_message name v) name
    ∧ strContains (status_changed_message name v) v := by
  refine ⟨?_, ?_, ?_⟩
  · have hs : pyDictSubscript HOMEWORK_VERDICTS (JsonVal.str st) = Except.ok v := by
      simp only [pyDictSubscript, h]
    have hred : parse_status (JsonVal.obj
          [("homework_name", JsonVal.str name), ("status", JsonVal.str st)])
        = match pyDictSubscript HOMEWORK_VERDICTS (JsonVal.str st) with
          | Except.ok w => Except.ok (status_changed_message name w)
          | Except.error (PyError.keyError r) => Except.ok (unrecognized_status_message r)
          | Except.error e => Except.error e := rfl
    rw [hred, hs]
  · refine ⟨"Изменился статус проверки работы \"", "\". " ++ v, ?_⟩
    simp [status_changed_message, String.append_assoc]
  · refine ⟨"Изменился статус проверки работы \"" ++ name ++ "\". ", "", ?_⟩
    simp [status_changed_message, String.append_assoc]

/-- C5 witness: the theorem applied at the record ("hw1", "approved"). -/
theorem claim_C5_witness :
    parse_status (JsonVal.obj
        [("homework_name", JsonVal.str "hw1"), ("status", JsonVal.str "approved")])
      = Except.ok (status_changed_message "hw1"
          "Работа проверена: ревьюеру всё понравилось. Ура!")
    ∧ strContains (status_changed_message "hw1"
        "Работа проверена: ревьюеру всё понравилось. Ура!") "hw1"
    ∧ strContains (status_changed_message "hw1"
        "Работа проверена: ревьюеру всё понравилось. Ура!")
        "Работа проверена: ревьюеру всё понравилось. Ура!" :=
  claim_C5_theorem "hw1" "approved" "Работа проверена: ревьюеру всё понравилось. Ура!" rfl

/-- C6 (confirmed): on the response `("homeworks": [], "current_date": T)`
`check_response` returns the no-update sentinel (`None`) instead of
failing, the iteration advances the cursor to `T`, and no message is
passed to `send_message` in that iteration. -/
theorem claim_C6_theorem (c : JsonVal) (T : Int) :
    check_response (JsonVal.obj
        [("homeworks", JsonVal.list []), ("current_date", JsonVal.int T)])
      = Except.ok none
    ∧ (main_iteration c (Except.ok (JsonVal.obj
        [("homeworks", JsonVal.list []), ("current_date", JsonVal.int T)]))).newCursor
      = JsonVal.int T
    ∧ (main_iteration c (Except.ok (JsonVal.obj
        [("homeworks", JsonVal.list []), ("current_date", JsonVal.int T)]))).sent
      = [] :=
  ⟨rfl, rfl, rfl⟩

/-- C7 counterexample: on the non-mapping document `"abc"` (a string),
`check_response` fails — but with an `AttributeError` from the `.get`
attribute access, not with the wrong-type `UnexpectedValueError`
(SchemaViolation) kind the claim states. -/
theorem claim_C7_counterexample :
    check_response (JsonVal.str "abc")
      = Except.error (PyError.attributeError
          "\x27str\x27 object has no attribute \x27get\x27")
    ∧ isSchemaViolationError (PyError.attributeError
        "\x27str\x27 object has no attribute \x27get\x27") = false :=
  ⟨rfl, rfl⟩

/-- C7 (amended): a mapping (truthy) response whose `homeworks` field holds
a non-list value (or lacks it) fails with the wrong-type
`UnexpectedValueError` as claimed; a non-mapping document also fails, but
with `EmptyValueError` when it is falsy and with an `AttributeError` (from
the `.get` attribute access) otherwise — not with the wrong-type error. -/
theorem claim_C7_theorem (fs : List (String × JsonVal)) (v : JsonVal)
    (h1 : pyTruthy (JsonVal.obj fs) = true)
    (h2 : pyType ((assocLookup fs "homeworks").getD JsonVal.null) ≠ PyType.list)
    (h3 : pyType v ≠ PyType.dict) :
    (∃ m, check_response (JsonVal.obj fs)
        = Except.error (PyError.unexpectedValueError m))
    ∧ check_response v
        = (if pyTruthy v = false
          then Except.error (PyError.emptyValueError "Возврат пустого словаря")
          else Except.error (PyError.attributeError
            ("\x27" ++ typeName v ++ "\x27 object has no attribute \x27get\x27"))) := by
  constructor
  · have step : check_response (JsonVal.obj fs)
        = match checkTypesLoop
            (pyDictInsert (pyDictInsert [] PyType.dict PyType.dict)
              (pyType ((assocLookup fs "homeworks").getD JsonVal.null)) PyType.list) with
          | Except.error e => Except.error e
          | Except.ok _ =>
            match checkKeysLoop (objKeys (JsonVal.obj fs)) with
            | Except.error e => Except.error e
            | Except.ok _ =>
              match pyIndex0 ((assocLookup fs "homeworks").getD JsonVal.null) with
              | Except.ok h => Except.ok (some h)
              | Except.error (PyError.indexError _) => Except.ok none
              | Except.error e => Except.error e := by
      unfold check_response
      rw [h1]
      rfl
    cases ht : pyType ((assocLookup fs "homeworks").getD JsonVal.null) with
    | list => exact absurd ht h2
    | noneType =>
        refine ⟨"Некорректный тип данных: " ++ pyTypeStr PyType.noneType, ?_⟩
        rw [step, ht]
        rfl
    | bool =>
        refine ⟨"Некорректный тип данных: " ++ pyTypeStr PyType.bool, ?_⟩
        rw [step, ht]
        rfl
    | int =>
        refine ⟨"Некорректный тип данных: " ++ pyTypeStr PyType.int, ?_⟩
        rw [step, ht]
        rfl
    | str =>
        refine ⟨"Некорректный тип данных: " ++ pyTypeStr PyType.str, ?_⟩
        rw [step, ht]
        rfl
    | dict =>
        refine ⟨"Некорректный тип данных: " ++ pyTypeStr PyType.dict, ?_⟩
        rw [step, ht]
        rfl
  · cases v with
    | obj fs2 => exact absurd rfl h3
    | null => rfl
    | bool b =>
        by_cases hb : pyTruthy (JsonVal.bool b) = false <;>
          simp [check_response, pyGet, hb, typeName]
    | int n =>
        by_cases hb : pyTruthy (JsonVal.int n) = false <;>
          simp [check_response, pyGet, hb, typeName]
    | str s =>
        by_cases hb : pyTruthy (JsonVal.str s) = false <;>
          simp [check_response, pyGet, hb, typeName]
    | list xs =>
        by_cases hb : pyTruthy (JsonVal.list xs) = false <;>
          simp [check_response, pyGet, hb, typeName]

/-- C7 witness: the amended theorem applied to the mapping
`("homeworks": "not-a-list")` and the non-mapping `"abc"`. -/
theorem claim_C7_witness :
    (∃ m, check_response (JsonVal.obj [("homeworks", JsonVal.str "not-a-list")])
        = Except.error (PyError.unexpectedValueError m))
    ∧ check_response (JsonVal.str "abc")
        = (if pyTruthy (JsonVal.str "abc") = false
          then Except.error (PyError.emptyValueError "Возврат пустого словаря")
          else Except.error (PyError.attributeError
            ("\x27" ++ typeName (JsonVal.str "abc")
              ++ "\x27 object has no attribute \x27get\x27"))) :=
  claim_C7_theorem [("homeworks", JsonVal.str "not-a-list")] (JsonVal.str "abc")
    rfl (by decide) (by decide)

/-- C8 counterexample: with the `homework_name` field absent, `parse_status`
does not fail with a `KeyError` — `.get` returns `None` and the message is
built with the name "None"; with `status` present but empty, it does not
fail with a `ValueError` — the `KeyError` from the verdict lookup is caught
and its text returned as the message. -/
theorem claim_C8_counterexample :
    parse_status (JsonVal.obj [("status", JsonVal.str "approved")])
      = Except.ok (status_changed_message "None"
          "Работа проверена: ревьюеру всё понравилось. Ура!")
    ∧ parse_status (JsonVal.obj
        [("homework_name", JsonVal.str "hw1"), ("status", JsonVal.str "")])
      = Except.ok (unrecognized_status_message "\x27\x27") :=
  ⟨rfl, rfl⟩

/-- C8 (amended): on a mapping record `parse_status` raises neither error:
when `homework_name` is absent (and the status is recognized) it returns
the status-changed message with "None" as the name, and when `status` is
present but empty it returns the unrecognized-status error text produced
by the caught `KeyError`. -/
theorem claim_C8_theorem (st v name : String)
    (h : assocLookup HOMEWORK_VERDICTS st = some v) :
    parse_status (JsonVal.obj [("status", JsonVal.str st)])
      = Except.ok (status_changed_message "None" v)
    ∧ parse_status (JsonVal.obj
        [("homework_name", JsonVal.str name), ("status", JsonVal.str "")])
      = Except.ok (unrecognized_status_message "\x27\x27") := by
  constructor
  · have hs : pyDictSubscript HOMEWORK_VERDICTS (JsonVal.str st) = Except.ok v := by
      simp only [pyDictSubscript, h]
    have hred : parse_status (JsonVal.obj [("status", JsonVal.str st)])
        = match pyDictSubscript HOMEWORK_VERDICTS (JsonVal.str st) with
          | Except.ok w => Except.ok (status_changed_message "None" w)
          | Except.error (PyError.keyError r) => Except.ok (unrecognized_status_message r)
          | Except.error e => Except.error e := rfl
    rw [hred, hs]
  · rfl

/-- C8 witness: the amended theorem applied at status "approved" and name
"hw1". -/
theorem claim_C8_witness :
    parse_status (JsonVal.obj [("status", JsonVal.str "approved")])
      = Except.ok (status_changed_message "None"
          "Работа проверена: ревьюеру всё понравилось. Ура!")
    ∧ parse_status (JsonVal.obj
        [("homework_name", JsonVal.str "hw1"), ("status", JsonVal.str "")])
      = Except.ok (unrecognized_status_message "\x27\x27") :=
  claim_C8_theorem "approved" "Работа проверена: ревьюеру всё понравилось. Ура!"
    "hw1" rfl

/-- C9 (confirmed): on a mapping response the cursor is overwritten with
the response's `current_date` value before `check_response` runs, so for
every mapping response on which `check_response` raises, the cursor for
the next poll has already been replaced — and when `current_date` is
absent it has been replaced by `None`.  The update is never rolled back. -/
theorem claim_C9_theorem (c : JsonVal) (fs : List (String × JsonVal)) (e : PyError)
    (h : check_response (JsonVal.obj fs) = Except.error e) :
    (main_iteration c (Except.ok (JsonVal.obj fs))).newCursor
      = (assocLookup fs "current_date").getD JsonVal.null
    ∧ (assocLookup fs "current_date" = none →
        (main_iteration c (Except.ok (JsonVal.obj fs))).newCursor = JsonVal.null) := by
  have key := main_iteration_newCursor_obj c fs
  exact ⟨key, fun h0 => by rw [key, h0]; rfl⟩

/-- C9 witness: the theorem applied at the mapping `("bogus": None)`, on
which `check_response` raises the wrong-type error; the cursor becomes
`None`. -/
theorem claim_C9_witness :
    (main_iteration JsonVal.null
        (Except.ok (JsonVal.obj [("bogus", JsonVal.null)]))).newCursor
      = (assocLookup [("bogus", JsonVal.null)] "current_date").getD JsonVal.null
    ∧ (assocLookup ([("bogus", JsonVal.null)] : List (String × JsonVal))
          "current_date" = none →
        (main_iteration JsonVal.null
          (Except.ok (JsonVal.obj [("bogus", JsonVal.null)]))).newCursor
          = JsonVal.null) :=
  claim_C9_theorem JsonVal.null [("bogus", JsonVal.null)]
    (PyError.unexpectedValueError
      "Некорректный тип данных: <class \x27NoneType\x27>") rfl

/-- C10 counterexample: on the mapping record `("status": [])` — whose
status value is an unhashable list — the verdict-table lookup raises
`TypeError`, which the `except KeyError` handler does not catch, so
`parse_status` is not total on mapping inputs: the exception propagates
and no string is returned. -/
theorem claim_C10_counterexample :
    parse_status (JsonVal.obj [("status", JsonVal.list [])])
      = Except.error (PyError.typeError "unhashable type: \x27list\x27")
    ∧ ¬ ∃ s, parse_status (JsonVal.obj [("status", JsonVal.list [])])
        = Except.ok s := by
  refine ⟨rfl, ?_⟩
  rintro ⟨s, hs⟩
  rw [show parse_status (JsonVal.obj [("status", JsonVal.list [])])
      = Except.error (PyError.typeError "unhashable type: \x27list\x27") from rfl] at hs
  exact Except.noConfusion hs

/-- C10 (amended): for every mapping input whose status value is hashable
(not a list or a dict), `parse_status` is total and returns a string: the
`KeyError` from the verdict-table lookup is caught inside `parse_status`
and the error text returned as the message, so no exception propagates —
including for records with a missing, non-string or unrecognized status. -/
theorem claim_C10_theorem (fs : List (String × JsonVal))
    (h : pyHashable ((assocLookup fs "status").getD JsonVal.null) = true) :
    ∃ s, parse_status (JsonVal.obj fs) = Except.ok s := by
  have hred : parse_status (JsonVal.obj fs)
      = match pyDictSubscript HOMEWORK_VERDICTS
          ((assocLookup fs "status").getD JsonVal.null) with
        | Except.ok w =>
            Except.ok (status_changed_message
              (pyStr ((assocLookup fs "homework_name").getD JsonVal.null)) w)
        | Except.error (PyError.keyError r) =>
            Except.ok (unrecognized_status_message r)
        | Except.error e => Except.error e := rfl
  cases hst : (assocLookup fs "status").getD JsonVal.null with
  | list xs => rw [hst] at h; cases h
  | obj ofs => rw [hst] at h; cases h
  | null =>
      refine ⟨unrecognized_status_message (pyRepr JsonVal.null), ?_⟩
      rw [hred, hst]
      rfl
  | bool b =>
      refine ⟨unrecognized_status_message (pyRepr (JsonVal.bool b)), ?_⟩
      rw [hred, hst]
      rfl
  | int n =>
      refine ⟨unrecognized_status_message (pyRepr (JsonVal.int n)), ?_⟩
      rw [hred, hst]
      rfl
  | str s =>
      cases hv : assocLookup HOMEWORK_VERDICTS s with
      | some v =>
          refine ⟨status_changed_message
            (pyStr ((assocLookup fs "homework_name").getD JsonVal.null)) v, ?_⟩
          rw [hred, hst]
          simp only [pyDictSubscript, hv]
      | none =>
          refine ⟨unrecognized_status_message ("\x27" ++ s ++ "\x27"), ?_⟩
          rw [hred, hst]
          simp only [pyDictSubscript, hv]

/-- C10 witness: the amended theorem applied at the empty mapping, whose
status lookup yields the hashable `None`. -/
theorem claim_C10_witness :
    ∃ s, parse_status (JsonVal.obj []) = Except.ok s :=
  claim_C10_theorem [] rfl

end HomeworkBot
